import Mathlib

/-!
Verification of the command-execution core of a benchmarking tool
(`src/hyperfine/shell.rs`): command preparation, process running and
CPU timing.  Pure functions are translated directly; the interaction
with the operating system (spawning, waiting, resource usage, the
random number source) is modelled by an explicit oracle record, and
each run additionally produces a trace of observable events.
-/

/- ---------------------------------------------------------------- -/
/- Characters used by the word splitter, named to keep the source    -/
/- readable.                                                         -/
/- ---------------------------------------------------------------- -/

/-- single-quote character -/
def chSQ : Char := Char.ofNat 39

/-- double-quote character -/
def chDQ : Char := Char.ofNat 34

/-- backslash character -/
def chBS : Char := Char.ofNat 92

/-- newline character -/
def chNL : Char := Char.ofNat 10

/-- horizontal tab character -/
def chTab : Char := Char.ofNat 9

/-- backquote character -/
def chBQ : Char := Char.ofNat 96

/-- dollar character -/
def chDollar : Char := Char.ofNat 36

/-- Whitespace that separates words during POSIX word splitting. -/
def isDelim (c : Char) : Bool := c = ' ' || c = chTab || c = chNL

/- ---------------------------------------------------------------- -/
/- The word splitter (external `shell_words` crate).                 -/
/- ---------------------------------------------------------------- -/

/-- States of the POSIX word-splitting automaton: between words, right
after a bare backslash seen between words, inside an unquoted word,
after a backslash inside an unquoted word, inside single quotes, inside
double quotes, after a backslash inside double quotes. -/
inductive SplitState
  | delimiter
  | backslash
  | unquoted
  | unquotedBackslash
  | singleQuoted
  | doubleQuoted
  | doubleQuotedBackslash
deriving DecidableEq

/-- Modelled from the spec: the tokenizer used by the no-shell path is
the external `shell_words` crate, whose source is not part of this
repository.  Following the spec, word splitting uses POSIX shell rules:
whitespace-separated tokens, single-quote and double-quote and backslash
escaping honored, no globbing or variable expansion.  `none` means the
input ends inside a quotation (unbalanced quoting); `w` accumulates the
current word and `ws` the completed words. -/
def splitLoop : SplitState → List Char → List Char → List (List Char) →
    Option (List (List Char))
  | .delimiter, [], _w, ws => some ws
  | .delimiter, c :: rest, _w, ws =>
    if c = chSQ then splitLoop .singleQuoted rest [] ws
    else if c = chDQ then splitLoop .doubleQuoted rest [] ws
    else if c = chBS then splitLoop .backslash rest [] ws
    else if isDelim c then splitLoop .delimiter rest [] ws
    else splitLoop .unquoted rest [c] ws
  | .backslash, [], w, ws => some (ws ++ [w ++ [chBS]])
  | .backslash, c :: rest, w, ws =>
    if c = chNL then splitLoop .delimiter rest [] ws
    else splitLoop .unquoted rest (w ++ [c]) ws
  | .unquoted, [], w, ws => some (ws ++ [w])
  | .unquoted, c :: rest, w, ws =>
    if c = chSQ then splitLoop .singleQuoted rest w ws
    else if c = chDQ then splitLoop .doubleQuoted rest w ws
    else if c = chBS then splitLoop .unquotedBackslash rest w ws
    else if isDelim c then splitLoop .delimiter rest [] (ws ++ [w])
    else splitLoop .unquoted rest (w ++ [c]) ws
  | .unquotedBackslash, [], w, ws => some (ws ++ [w ++ [chBS]])
  | .unquotedBackslash, c :: rest, w, ws =>
    if c = chNL then splitLoop .unquoted rest w ws
    else splitLoop .unquoted rest (w ++ [c]) ws
  | .singleQuoted, [], _w, _ws => none
  | .singleQuoted, c :: rest, w, ws =>
    if c = chSQ then splitLoop .unquoted rest w ws
    else splitLoop .singleQuoted rest (w ++ [c]) ws
  | .doubleQuoted, [], _w, _ws => none
  | .doubleQuoted, c :: rest, w, ws =>
    if c = chDQ then splitLoop .unquoted rest w ws
    else if c = chBS then splitLoop .doubleQuotedBackslash rest w ws
    else splitLoop .doubleQuoted rest (w ++ [c]) ws
  | .doubleQuotedBackslash, [], _w, _ws => none
  | .doubleQuotedBackslash, c :: rest, w, ws =>
    if c = chNL then splitLoop .doubleQuoted rest w ws
    else if c = chDollar || c = chBQ || c = chDQ || c = chBS then
      splitLoop .doubleQuoted rest (w ++ [c]) ws
    else splitLoop .doubleQuoted rest (w ++ [chBS, c]) ws

/-- Tokenization failure: the command text ends inside a quotation.
Modelled from the spec: the error names the offending command text. -/
structure ParseErr where
  command : String
deriving DecidableEq

/-- Display text of a tokenization failure.  Modelled from the spec:
a malformed-quoting error in the no-shell path surfaces as an input
error naming the offending command text. -/
def displayParseErr (e : ParseErr) : String :=
  "missing closing quote while splitting command -- " ++ e.command ++ " -- into words"

/-- Modelled from the spec: `shell_words::split`, POSIX word splitting
of a command string, all-or-nothing (a quoting error yields no partial
token list). -/
def shell_words_split (s : String) : Except ParseErr (List String) :=
  match splitLoop .delimiter s.toList [] [] with
  | none => .error ⟨s⟩
  | some ws => .ok (ws.map fun w => String.mk w)

/- ---------------------------------------------------------------- -/
/- I/O errors and exit statuses.                                     -/
/- ---------------------------------------------------------------- -/

/-- The error kinds of `io::Error` that this code can produce or
receive from the operating system. -/
inductive IoErrorKind
  | other
  | notFound
  | permissionDenied
deriving DecidableEq

/-- An `io::Error`: a kind plus a display message. -/
structure IoError where
  kind : IoErrorKind
  message : String
deriving DecidableEq

deriving instance DecidableEq for Except

/-- A Unix wait status (`ExitStatus` on the Unix side), as the raw
value given to `ExitStatusExt::from_raw`. -/
structure ExitStatus where
  raw : Nat
deriving DecidableEq

/-- `ExitStatusExt::from_raw`. -/
def ExitStatus.fromRaw (n : Nat) : ExitStatus := ⟨n⟩

/-- `ExitStatus::success` on Unix: the process exited normally (low
seven bits of the wait status are zero) with exit code zero (bits
eight to fifteen are zero). -/
def ExitStatus.success (s : ExitStatus) : Bool :=
  s.raw % 128 == 0 && (s.raw / 256) % 256 == 0

/-- A Windows exit status, as the raw `u32` exit code. -/
structure WinExitStatus where
  raw : Nat
deriving DecidableEq

/- ---------------------------------------------------------------- -/
/- Stdio policies, spawn configurations, and observable events.      -/
/- ---------------------------------------------------------------- -/

/-- The redirection policy for one standard stream: closed, captured
to a pipe, or inherited from the harness. -/
inductive Stdio
  | null
  | piped
  | inherit
deriving DecidableEq

/-- The full configuration handed to the operating system when a child
process is spawned: program, arguments, additional environment
variables, and the three standard-stream policies. -/
structure SpawnEvent where
  executable : String
  args : List String
  env : List (String × String)
  stdin : Stdio
  stdout : Stdio
  stderr : Stdio
deriving DecidableEq

/-- Observable events of one invocation, in order of occurrence:
creation of the CPU timer, a spawn with its configuration, the wait
for the child, and the stop of the CPU timer. -/
inductive Event
  | timerCreate
  | spawn (se : SpawnEvent)
  | wait
  | timerStop
deriving DecidableEq

/-- Whether an event is the stop of the CPU timer. -/
def isTimerStop : Event → Bool
  | Event.timerStop => true
  | _ => false

/-- Name of the environment variable injected into every spawned
child on the Unix side. -/
def envVarName : String := "HYPERFINE_RANDOMIZED_ENVIRONMENT_OFFSET"

/-- `"X".repeat n`: the filler value of the injected variable. -/
def xRepeat (n : Nat) : String := String.mk (List.replicate n 'X')

/- ---------------------------------------------------------------- -/
/- Command preparation (`prepare_shell_command`).                    -/
/- ---------------------------------------------------------------- -/

/-- `prepare_shell_command`: with an empty shell, tokenize the command
into words and take the first word as the executable and the rest as
arguments, returning `none` when there is no word and an `io::Error`
of kind `Other` carrying the tokenizer's display text when
tokenization fails; with a non-empty shell, run the shell itself with
the shell flag and the whole command text as its two arguments. -/
def prepare_shell_command (command shell shell_arg : String) :
    Except IoError (Option (String × List String)) :=
  if shell = "" then
    match shell_words_split command with
    | .error error => .error ⟨IoErrorKind.other, displayParseErr error⟩
    | .ok tokens =>
      match tokens with
      | [] => .ok none
      | t :: rest => .ok (some (t, rest))
  else
    .ok (some (shell, [shell_arg, command]))

/- ---------------------------------------------------------------- -/
/- The Unix-side runner and timer.                                   -/
/- ---------------------------------------------------------------- -/

/-- Cumulative CPU usage of waited-for children, as reported by the
operating system: user seconds and system seconds. -/
structure RUsage where
  user : Rat
  sys : Rat
deriving DecidableEq

/-- The oracle fixing what the operating system does during one Unix
invocation: the cumulative children usage when the invocation starts,
the outcome of `Command::status` (an error covers both a failed spawn
and a failed wait), the CPU usage the child adds when it is
successfully waited for, and the value drawn from the random number
source. -/
structure UnixOs where
  startUsage : RUsage
  spawnOutcome : Except IoError Nat
  childUsage : RUsage
  randVal : Nat

/-- Modelled from the spec: the Unix CPU timer (`get_cpu_timer` in
`src/hyperfine/timer.rs`, not part of `src/`) uses wait-based
accounting -- creation records the cumulative children usage, and stop
reads it again and returns the difference as (user, system) seconds. -/
structure CPUTimer where
  startUsage : RUsage

/-- Modelled from the spec: create the wait-based timer by recording
the current cumulative children usage. -/
def get_cpu_timer (current : RUsage) : CPUTimer := ⟨current⟩

/-- Modelled from the spec: stop the wait-based timer, returning the
children usage accumulated since creation. -/
def CPUTimer.stop (t : CPUTimer) (current : RUsage) : Rat × Rat :=
  (current.user - t.startUsage.user, current.sys - t.startUsage.sys)

/-- Outcome of the Unix `run_shell_command`: the returned value, the
events that occurred, and the cumulative children usage afterwards. -/
structure UnixRun where
  result : Except IoError ExitStatus
  events : List Event
  usageAfter : RUsage

/-- The Unix `run_shell_command`: prepare the command with flag `-c`;
on "no command" return exit status zero without touching the operating
system; otherwise spawn the executable with the arguments, one extra
environment variable whose value is `"X"` repeated a random number
(below 4096) of times, stdin closed and stdout and stderr as the
caller asked, and wait for it. -/
def run_shell_command (os : UnixOs) (stdout stderr : Stdio)
    (command shell : String) : UnixRun :=
  match prepare_shell_command command shell "-c" with
  | .error e => ⟨.error e, [], os.startUsage⟩
  | .ok none => ⟨.ok (ExitStatus.fromRaw 0), [], os.startUsage⟩
  | .ok (some (executable, arguments)) =>
    let env := [(envVarName, xRepeat (os.randVal % 4096))]
    let sp := Event.spawn ⟨executable, arguments, env, Stdio.null, stdout, stderr⟩
    match os.spawnOutcome with
    | .error e => ⟨.error e, [sp], os.startUsage⟩
    | .ok raw =>
      ⟨.ok (ExitStatus.fromRaw raw), [sp, Event.wait],
       ⟨os.startUsage.user + os.childUsage.user,
        os.startUsage.sys + os.childUsage.sys⟩⟩

/-- The timing summary returned to the caller. -/
structure ExecuteResult where
  user_time : Rat
  system_time : Rat
  status : ExitStatus
deriving DecidableEq

/-- The Unix `execute_and_time`: create the CPU timer, run the shell
command (an error propagates at the question mark, before any stop of
the timer), then stop the timer and assemble the result. -/
def execute_and_time (os : UnixOs) (stdout stderr : Stdio)
    (command shell : String) : Except IoError ExecuteResult × List Event :=
  let cpu_timer := get_cpu_timer os.startUsage
  let r := run_shell_command os stdout stderr command shell
  match r.result with
  | .error e => (.error e, Event.timerCreate :: r.events)
  | .ok status =>
    let t := cpu_timer.stop r.usageAfter
    (.ok ⟨t.1, t.2, status⟩, Event.timerCreate :: r.events ++ [Event.timerStop])

/- ---------------------------------------------------------------- -/
/- The Windows-side runner and timer.                                -/
/- ---------------------------------------------------------------- -/

/-- The oracle fixing what the operating system does during one
Windows invocation: the outcome of `Command::spawn`, the outcome of
`Child::wait`, and the kernel and user process times the handle-based
timer reads, in 100-nanosecond ticks. -/
structure WinOs where
  spawnOutcome : Except IoError Unit
  waitOutcome : Except IoError Nat
  kernelTicks : Nat
  userTicks : Nat

/-- Conversion of 100-nanosecond platform ticks into seconds, used by
the handle-based timer (modelled from the spec). -/
def ticksToSeconds (t : Nat) : Rat := (t : Rat) / 10000000

/-- What the Windows `run_shell_command` returns: a spawned child, or
-- on the "no command" arm -- the value `ExitStatusExt::from_raw(0)`
that the source returns there even though the declared return type is
`io::Result<Child>` (under `cfg(windows)` that arm does not type-check;
it is kept as a separate constructor and no theorem depends on it). -/
inductive WinRunResult
  | child
  | exitZero

/-- Outcome of the Windows `run_shell_command`: the returned value and
the events that occurred. -/
structure WinRun where
  result : Except IoError WinRunResult
  events : List Event

/-- The Windows `run_shell_command`: prepare the command with flag
`/C`; otherwise spawn the executable with the arguments, stdin closed
and stdout and stderr as the caller asked, without waiting and without
any extra environment variable. -/
def run_shell_command_win (os : WinOs) (stdout stderr : Stdio)
    (command shell : String) : WinRun :=
  match prepare_shell_command command shell "/C" with
  | .error e => ⟨.error e, []⟩
  | .ok none => ⟨.ok WinRunResult.exitZero, []⟩
  | .ok (some (executable, arguments)) =>
    let sp := Event.spawn ⟨executable, arguments, [], Stdio.null, stdout, stderr⟩
    match os.spawnOutcome with
    | .error e => ⟨.error e, [sp]⟩
    | .ok _ => ⟨.ok WinRunResult.child, [sp]⟩

/-- The timing summary returned to the caller on the Windows side. -/
structure WinExecuteResult where
  user_time : Rat
  system_time : Rat
  status : WinExitStatus
deriving DecidableEq

/-- The Windows `execute_and_time`: run the shell command (an error
propagates at the question mark), create the handle-based CPU timer
from the child, wait for the child (an error again propagates before
any stop of the timer), then stop the timer -- reading the process's
kernel and user times through the handle -- and assemble the result.
On the "no command" arm the source does not type-check (see
`WinRunResult.exitZero`); the model maps it to an error and no theorem
depends on that arm. -/
def execute_and_time_win (os : WinOs) (stdout stderr : Stdio)
    (command shell : String) : Except IoError WinExecuteResult × List Event :=
  let r := run_shell_command_win os stdout stderr command shell
  match r.result with
  | .error e => (.error e, r.events)
  | .ok WinRunResult.exitZero =>
    (.error ⟨IoErrorKind.other, "unreachable: ill-typed arm of the source"⟩,
     r.events)
  | .ok WinRunResult.child =>
    match os.waitOutcome with
    | .error e => (.error e, r.events ++ [Event.timerCreate, Event.wait])
    | .ok code =>
      (.ok ⟨ticksToSeconds os.userTicks, ticksToSeconds os.kernelTicks, ⟨code⟩⟩,
       r.events ++ [Event.timerCreate, Event.wait, Event.timerStop])

/- ---------------------------------------------------------------- -/
/- Helper lemmas.                                                    -/
/- ---------------------------------------------------------------- -/

/-- On all-whitespace input the splitting automaton stays in the
delimiter state and finishes with the words accumulated so far. -/
lemma splitLoop_all_delim :
    ∀ (cs : List Char), (∀ c ∈ cs, isDelim c = true) →
      ∀ (w : List Char) (ws : List (List Char)),
        splitLoop SplitState.delimiter cs w ws = some ws := by
  intro cs
  induction cs with
  | nil => intro _ w ws; rfl
  | cons c rest ih =>
    intro h w ws
    have hc : (c = ' ' ∨ c = chTab) ∨ c = chNL := by
      simpa [isDelim] using h c (List.mem_cons_self c rest)
    have hmem : ∀ x ∈ rest, isDelim x = true :=
      fun x hx => h x (List.mem_cons_of_mem c hx)
    rcases hc with (h1 | h1) | h1 <;> subst h1 <;>
      simp only [splitLoop] <;>
      rw [if_neg (by decide), if_neg (by decide), if_neg (by decide),
          if_pos (by decide)] <;>
      exact ih hmem [] ws

/-- An all-whitespace (or empty) command splits to no words. -/
lemma shell_words_split_all_ws (command : String)
    (h : ∀ c ∈ command.toList, isDelim c = true) :
    shell_words_split command = .ok [] := by
  unfold shell_words_split
  rw [splitLoop_all_delim command.toList h [] []]
  rfl

/-- A tokenization error always carries the offending command text. -/
lemma shell_words_split_error_carries {s : String} {e : ParseErr}
    (h : shell_words_split s = .error e) : e = ⟨s⟩ := by
  unfold shell_words_split at h
  cases hs : splitLoop SplitState.delimiter s.toList [] [] with
  | none =>
    rw [hs] at h
    injection h with h'
    exact h'.symm
  | some ws =>
    rw [hs] at h
    simp at h

/-- With the empty shell the preparation outcome is determined by the
word splitter alone. -/
lemma prepare_no_shell (command flag : String) :
    prepare_shell_command command "" flag =
      (match shell_words_split command with
       | .error error => .error ⟨IoErrorKind.other, displayParseErr error⟩
       | .ok [] => .ok none
       | .ok (t :: rest) => .ok (some (t, rest))) := by
  unfold prepare_shell_command
  rw [if_pos rfl]
  cases shell_words_split command with
  | error e => rfl
  | ok ts => cases ts <;> rfl

/- ---------------------------------------------------------------- -/
/- C1 -- explicit shell pass-through.                                -/
/- ---------------------------------------------------------------- -/

/-- C1: for every command string and every non-empty shell string,
preparation succeeds (it never returns a parse error) with the shell
string verbatim as the executable and exactly the two arguments
shell flag and command string, the command passed through unmodified
even if it contains unbalanced quotes. -/
theorem c1_explicit_shell_passthrough (command shell flag : String)
    (h : shell ≠ "") :
    prepare_shell_command command shell flag =
      .ok (some (shell, [flag, command])) := by
  unfold prepare_shell_command
  rw [if_neg h]

/-- C1 witness: an explicit shell with a command containing an
unbalanced quote. -/
theorem c1_explicit_shell_passthrough_witness :
    ("/bin/bash" : String) ≠ "" ∧
    prepare_shell_command "echo \"oops" "/bin/bash" "-c" =
      .ok (some ("/bin/bash", ["-c", "echo \"oops"])) :=
  ⟨by decide,
   c1_explicit_shell_passthrough "echo \"oops" "/bin/bash" "-c" (by decide)⟩

/- ---------------------------------------------------------------- -/
/- C2 -- no-shell tokenization.                                      -/
/- ---------------------------------------------------------------- -/

/-- C2: for every command string that tokenizes, preparation with the
empty shell returns the first token as the executable and the
remaining tokens in order as the arguments, and returns the "no
command" absence when tokenization yields zero tokens. -/
theorem c2_no_shell_tokenization (command flag : String) (ts : List String)
    (h : shell_words_split command = .ok ts) :
    prepare_shell_command command "" flag =
      .ok (ts.head?.map fun t => (t, ts.tail)) := by
  rw [prepare_no_shell, h]
  cases ts <;> rfl

/-- C2 witness: `echo hello` prepares to executable `echo` with the
single argument `hello`. -/
theorem c2_no_shell_tokenization_witness :
    shell_words_split "echo hello" = .ok ["echo", "hello"] ∧
    prepare_shell_command "echo hello" "" "-c" =
      .ok (some ("echo", ["hello"])) :=
  ⟨by decide, c2_no_shell_tokenization "echo hello" "-c" ["echo", "hello"] (by decide)⟩

/-- Evaluation of the Unix `execute_and_time` from the outcome of its
`run_shell_command` call: an error propagates before the timer is
stopped; on success the timer is stopped and the times are the usage
accumulated by the run. -/
lemma execute_eq_of_run (os : UnixOs) (stdout stderr : Stdio)
    (command shell : String) (r : UnixRun)
    (h : run_shell_command os stdout stderr command shell = r) :
    execute_and_time os stdout stderr command shell =
      (match r.result with
       | .error e => (.error e, Event.timerCreate :: r.events)
       | .ok status =>
         (.ok ⟨r.usageAfter.user - os.startUsage.user,
               r.usageAfter.sys - os.startUsage.sys, status⟩,
          Event.timerCreate :: r.events ++ [Event.timerStop])) := by
  unfold execute_and_time
  rw [h]
  obtain ⟨res, evs, ua⟩ := r
  cases res <;> rfl

/- ---------------------------------------------------------------- -/
/- C3 -- tokenization failure surfaces, nothing is spawned.          -/
/- ---------------------------------------------------------------- -/

/-- C3: for every command string whose tokenization fails (unbalanced
quoting) and the empty shell, preparation fails with the parse error,
the error is surfaced to the caller of `execute_and_time` unchanged,
and the event trace contains no spawn -- no process is created and
tokenization never partially succeeds. -/
theorem c3_parse_error_surfaced_no_spawn (os : UnixOs) (stdout stderr : Stdio)
    (command flag : String) (e : ParseErr)
    (h : shell_words_split command = .error e) :
    prepare_shell_command command "" flag =
      .error ⟨IoErrorKind.other, displayParseErr e⟩ ∧
    (execute_and_time os stdout stderr command "").1 =
      .error ⟨IoErrorKind.other, displayParseErr e⟩ ∧
    ∀ ev ∈ (execute_and_time os stdout stderr command "").2,
      ∀ se, ev ≠ Event.spawn se := by
  have hp : ∀ f : String, prepare_shell_command command "" f =
      .error ⟨IoErrorKind.other, displayParseErr e⟩ := by
    intro f
    rw [prepare_no_shell, h]
  have hrun : run_shell_command os stdout stderr command "" =
      ⟨.error ⟨IoErrorKind.other, displayParseErr e⟩, [], os.startUsage⟩ := by
    unfold run_shell_command
    rw [hp "-c"]
  have hex := execute_eq_of_run os stdout stderr command "" _ hrun
  have hres : (execute_and_time os stdout stderr command "").1 =
      .error ⟨IoErrorKind.other, displayParseErr e⟩ := by rw [hex]
  have htr : (execute_and_time os stdout stderr command "").2 =
      [Event.timerCreate] := by rw [hex]
  refine ⟨hp flag, hres, ?_⟩
  intro ev hev se
  rw [htr] at hev
  have : ev = Event.timerCreate := by simpa using hev
  subst this
  simp

/-- C3 witness: an unterminated quotation is rejected and execution
on it fails without spawning. -/
theorem c3_parse_error_surfaced_no_spawn_witness :
    shell_words_split "echo \"unterminated" = .error ⟨"echo \"unterminated"⟩ ∧
    (execute_and_time ⟨⟨0, 0⟩, .ok 0, ⟨0, 0⟩, 5⟩ Stdio.null Stdio.null
        "echo \"unterminated" "").1 =
      .error ⟨IoErrorKind.other, displayParseErr ⟨"echo \"unterminated"⟩⟩ :=
  ⟨by decide,
   (c3_parse_error_surfaced_no_spawn ⟨⟨0, 0⟩, .ok 0, ⟨0, 0⟩, 5⟩ Stdio.null
     Stdio.null "echo \"unterminated" "-c" ⟨"echo \"unterminated"⟩
     (by decide)).2.1⟩

/- ---------------------------------------------------------------- -/
/- C4 -- the error names the offending command text.                 -/
/- ---------------------------------------------------------------- -/

/-- C4: for every untokenizable command string in the no-shell path,
the error that preparation returns has a message containing the
offending command text verbatim. -/
theorem c4_error_names_command (command flag : String) (e : ParseErr)
    (h : shell_words_split command = .error e) :
    ∃ err : IoError, prepare_shell_command command "" flag = .error err ∧
      ∃ p q : String, err.message = p ++ command ++ q := by
  have he : e = ⟨command⟩ := shell_words_split_error_carries h
  subst he
  refine ⟨⟨IoErrorKind.other, displayParseErr ⟨command⟩⟩, ?_, ?_⟩
  · rw [prepare_no_shell, h]
  · exact ⟨"missing closing quote while splitting command -- ",
           " -- into words", rfl⟩

/-- C4 witness: the error for an unbalanced double quote names the
command. -/
theorem c4_error_names_command_witness :
    shell_words_split "\"abc" = .error ⟨"\"abc"⟩ ∧
    (∃ err : IoError, prepare_shell_command "\"abc" "" "-c" = .error err ∧
      ∃ p q : String, err.message = p ++ "\"abc" ++ q) :=
  ⟨by decide, c4_error_names_command "\"abc" "-c" ⟨"\"abc"⟩ (by decide)⟩

/- ---------------------------------------------------------------- -/
/- C9 -- absence only for zero tokens; a quoted empty word counts.   -/
/- ---------------------------------------------------------------- -/

/-- The command consisting of a single pair of single quotes. -/
def cmdQQ : String := String.mk [chSQ, chSQ]

/-- C9: in the no-shell path preparation returns the "no command"
absence only when tokenization yields zero tokens; the command made of
one quoted empty string tokenizes to a single empty token, so it
prepares to an empty executable with no arguments rather than to
absence. -/
theorem c9_absence_only_for_zero_tokens (command flag : String) :
    (prepare_shell_command command "" flag = .ok none →
      shell_words_split command = .ok []) ∧
    shell_words_split cmdQQ = .ok [""] ∧
    prepare_shell_command cmdQQ "" flag = .ok (some ("", [])) := by
  refine ⟨?_, by decide, ?_⟩
  · intro hp
    rw [prepare_no_shell] at hp
    cases hsp : shell_words_split command with
    | error e => rw [hsp] at hp; simp at hp
    | ok ts =>
      cases ts with
      | nil => rfl
      | cons t rest => rw [hsp] at hp; simp at hp
  · rw [prepare_no_shell,
        show shell_words_split cmdQQ = .ok [""] from by decide]

/-- C9 witness: the empty command prepares to absence and tokenizes to
nothing, while the quoted-empty-word command prepares to an empty
executable. -/
theorem c9_absence_only_for_zero_tokens_witness :
    shell_words_split "" = .ok [] ∧
    prepare_shell_command cmdQQ "" "-c" = .ok (some ("", [])) :=
  ⟨(c9_absence_only_for_zero_tokens "" "-c").1 (by decide),
   (c9_absence_only_for_zero_tokens cmdQQ "-c").2.2⟩

/- ---------------------------------------------------------------- -/
/- C10 -- the parse error is a generic I/O error.                    -/
/- ---------------------------------------------------------------- -/

/-- C10: a tokenization failure surfaces from preparation as an
`io::Error` of the generic kind `Other` whose message is exactly the
tokenizer's display text, so it is not distinguishable by type or kind
from other I/O failures. -/
theorem c10_parse_error_generic_kind (command flag : String) (e : ParseErr)
    (h : shell_words_split command = .error e) :
    prepare_shell_command command "" flag =
      .error ⟨IoErrorKind.other, displayParseErr e⟩ := by
  rw [prepare_no_shell, h]

/-- C10 witness: a single double quote fails with kind `Other` and the
tokenizer's display text. -/
theorem c10_parse_error_generic_kind_witness :
    shell_words_split "\"" = .error ⟨"\""⟩ ∧
    prepare_shell_command "\"" "" "-c" =
      .error ⟨IoErrorKind.other, displayParseErr ⟨"\""⟩⟩ :=
  ⟨by decide, c10_parse_error_generic_kind "\"" "-c" ⟨"\""⟩ (by decide)⟩

/- ---------------------------------------------------------------- -/
/- Spawn-event shape lemmas.                                         -/
/- ---------------------------------------------------------------- -/

/-- Every spawn event emitted by the Unix `run_shell_command` has the
injected environment variable, a closed stdin, and the caller's stdout
and stderr policies. -/
lemma run_spawn_shape (os : UnixOs) (stdout stderr : Stdio)
    (command shell : String) (se : SpawnEvent)
    (h : Event.spawn se ∈ (run_shell_command os stdout stderr command shell).events) :
    se.env = [(envVarName, xRepeat (os.randVal % 4096))] ∧
    se.stdin = Stdio.null ∧ se.stdout = stdout ∧ se.stderr = stderr := by
  cases hp : prepare_shell_command command shell "-c" with
  | error e =>
    have heq : run_shell_command os stdout stderr command shell =
        ⟨.error e, [], os.startUsage⟩ := by
      unfold run_shell_command
      rw [hp]
    rw [heq] at h
    simp at h
  | ok po =>
    cases po with
    | none =>
      have heq : run_shell_command os stdout stderr command shell =
          ⟨.ok (ExitStatus.fromRaw 0), [], os.startUsage⟩ := by
        unfold run_shell_command
        rw [hp]
      rw [heq] at h
      simp at h
    | some pr =>
      obtain ⟨ex, args⟩ := pr
      cases hs : os.spawnOutcome with
      | error e =>
        have heq : run_shell_command os stdout stderr command shell =
            ⟨.error e,
             [Event.spawn ⟨ex, args, [(envVarName, xRepeat (os.randVal % 4096))],
               Stdio.null, stdout, stderr⟩], os.startUsage⟩ := by
          unfold run_shell_command
          rw [hp, hs]
        rw [heq] at h
        simp only [List.mem_singleton, Event.spawn.injEq] at h
        subst h
        exact ⟨rfl, rfl, rfl, rfl⟩
      | ok raw =>
        have heq : run_shell_command os stdout stderr command shell =
            ⟨.ok (ExitStatus.fromRaw raw),
             [Event.spawn ⟨ex, args, [(envVarName, xRepeat (os.randVal % 4096))],
               Stdio.null, stdout, stderr⟩, Event.wait],
             ⟨os.startUsage.user + os.childUsage.user,
              os.startUsage.sys + os.childUsage.sys⟩⟩ := by
          unfold run_shell_command
          rw [hp, hs]
        rw [heq] at h
        simp at h
        subst h
        exact ⟨rfl, rfl, rfl, rfl⟩

/-- A spawn event of the Unix `execute_and_time` comes from its
`run_shell_command` call. -/
lemma execute_spawn_mem (os : UnixOs) (stdout stderr : Stdio)
    (command shell : String) (se : SpawnEvent)
    (h : Event.spawn se ∈ (execute_and_time os stdout stderr command shell).2) :
    Event.spawn se ∈ (run_shell_command os stdout stderr command shell).events := by
  rw [execute_eq_of_run os stdout stderr command shell _ rfl] at h
  cases hr : (run_shell_command os stdout stderr command shell).result with
  | error e =>
    rw [hr] at h
    simpa using h
  | ok status =>
    rw [hr] at h
    simpa using h

/-- Every spawn event emitted by the Windows `run_shell_command` has
no extra environment variable, a closed stdin, and the caller's stdout
and stderr policies. -/
lemma run_win_spawn_shape (os : WinOs) (stdout stderr : Stdio)
    (command shell : String) (se : SpawnEvent)
    (h : Event.spawn se ∈
      (run_shell_command_win os stdout stderr command shell).events) :
    se.env = [] ∧ se.stdin = Stdio.null ∧ se.stdout = stdout ∧
      se.stderr = stderr := by
  cases hp : prepare_shell_command command shell "/C" with
  | error e =>
    have heq : run_shell_command_win os stdout stderr command shell =
        ⟨.error e, []⟩ := by
      unfold run_shell_command_win
      rw [hp]
    rw [heq] at h
    simp at h
  | ok po =>
    cases po with
    | none =>
      have heq : run_shell_command_win os stdout stderr command shell =
          ⟨.ok WinRunResult.exitZero, []⟩ := by
        unfold run_shell_command_win
        rw [hp]
      rw [heq] at h
      simp at h
    | some pr =>
      obtain ⟨ex, args⟩ := pr
      cases hs : os.spawnOutcome with
      | error e =>
        have heq : run_shell_command_win os stdout stderr command shell =
            ⟨.error e,
             [Event.spawn ⟨ex, args, [], Stdio.null, stdout, stderr⟩]⟩ := by
          unfold run_shell_command_win
          rw [hp, hs]
        rw [heq] at h
        simp only [List.mem_singleton, Event.spawn.injEq] at h
        subst h
        exact ⟨rfl, rfl, rfl, rfl⟩
      | ok u =>
        have heq : run_shell_command_win os stdout stderr command shell =
            ⟨.ok WinRunResult.child,
             [Event.spawn ⟨ex, args, [], Stdio.null, stdout, stderr⟩]⟩ := by
          unfold run_shell_command_win
          rw [hp, hs]
        rw [heq] at h
        simp only [List.mem_singleton, Event.spawn.injEq] at h
        subst h
        exact ⟨rfl, rfl, rfl, rfl⟩

/-- Evaluation of the Windows `execute_and_time` from the outcome of
its `run_shell_command` call. -/
lemma execute_win_eq_of_run (os : WinOs) (stdout stderr : Stdio)
    (command shell : String) (r : WinRun)
    (h : run_shell_command_win os stdout stderr command shell = r) :
    execute_and_time_win os stdout stderr command shell =
      (match r.result with
       | .error e => (.error e, r.events)
       | .ok WinRunResult.exitZero =>
         (.error ⟨IoErrorKind.other, "unreachable: ill-typed arm of the source"⟩,
          r.events)
       | .ok WinRunResult.child =>
         match os.waitOutcome with
         | .error e => (.error e, r.events ++ [Event.timerCreate, Event.wait])
         | .ok code =>
           (.ok ⟨ticksToSeconds os.userTicks, ticksToSeconds os.kernelTicks,
                 ⟨code⟩⟩,
            r.events ++ [Event.timerCreate, Event.wait, Event.timerStop])) := by
  unfold execute_and_time_win
  rw [h]

/-- A spawn event of the Windows `execute_and_time` comes from its
`run_shell_command` call. -/
lemma execute_win_spawn_mem (os : WinOs) (stdout stderr : Stdio)
    (command shell : String) (se : SpawnEvent)
    (h : Event.spawn se ∈
      (execute_and_time_win os stdout stderr command shell).2) :
    Event.spawn se ∈
      (run_shell_command_win os stdout stderr command shell).events := by
  rw [execute_win_eq_of_run os stdout stderr command shell _ rfl] at h
  cases hr : (run_shell_command_win os stdout stderr command shell).result with
  | error e =>
    rw [hr] at h
    exact h
  | ok w =>
    cases w with
    | exitZero =>
      rw [hr] at h
      exact h
    | child =>
      rw [hr] at h
      cases hw : os.waitOutcome with
      | error e =>
        rw [hw] at h
        simpa using h
      | ok code =>
        rw [hw] at h
        simpa using h

/- ---------------------------------------------------------------- -/
/- C5 -- empty command is a zero-cost baseline.                      -/
/- ---------------------------------------------------------------- -/

/-- C5: for every command string that is empty or all whitespace and
no explicit shell, `execute_and_time` returns a result with zero user
and system time and a successful status, and the event trace shows
that no process was created -- only the timer was created and
stopped. -/
theorem c5_empty_command_zero_baseline (os : UnixOs) (stdout stderr : Stdio)
    (command : String) (h : ∀ c ∈ command.toList, isDelim c = true) :
    (execute_and_time os stdout stderr command "").1 =
      .ok ⟨0, 0, ExitStatus.fromRaw 0⟩ ∧
    (ExitStatus.fromRaw 0).success = true ∧
    (execute_and_time os stdout stderr command "").2 =
      [Event.timerCreate, Event.timerStop] := by
  have hsp := shell_words_split_all_ws command h
  have hp : prepare_shell_command command "" "-c" = .ok none := by
    rw [prepare_no_shell, hsp]
  have hrun : run_shell_command os stdout stderr command "" =
      ⟨.ok (ExitStatus.fromRaw 0), [], os.startUsage⟩ := by
    unfold run_shell_command
    rw [hp]
  have hex := execute_eq_of_run os stdout stderr command "" _ hrun
  refine ⟨?_, by decide, by rw [hex]; rfl⟩
  rw [hex]
  simp [sub_self]

/-- C5 witness: a whitespace-only command with a nonzero starting
usage still yields the zero-time successful result. -/
theorem c5_empty_command_zero_baseline_witness :
    (∀ c ∈ ("   " : String).toList, isDelim c = true) ∧
    (execute_and_time ⟨⟨7, 8⟩, .ok 0, ⟨1, 2⟩, 3⟩ Stdio.piped Stdio.inherit
        "   " "").1 = .ok ⟨0, 0, ExitStatus.fromRaw 0⟩ :=
  ⟨by decide,
   (c5_empty_command_zero_baseline ⟨⟨7, 8⟩, .ok 0, ⟨1, 2⟩, 3⟩ Stdio.piped
     Stdio.inherit "   " (by decide)).1⟩

/- ---------------------------------------------------------------- -/
/- C6 -- the injected environment variable.                          -/
/- ---------------------------------------------------------------- -/

/-- C6: on the Unix side, every spawn performed by `execute_and_time`
injects exactly one additional environment variable, with the fixed
name, whose value is the filler character repeated a random number of
times, of length strictly below 4096. -/
theorem c6_randomized_env_injection (os : UnixOs) (stdout stderr : Stdio)
    (command shell : String) (se : SpawnEvent)
    (h : Event.spawn se ∈ (execute_and_time os stdout stderr command shell).2) :
    se.env = [(envVarName, xRepeat (os.randVal % 4096))] ∧
    (xRepeat (os.randVal % 4096)).length < 4096 ∧
    (xRepeat (os.randVal % 4096)).toList =
      List.replicate (os.randVal % 4096) 'X' := by
  have hm := execute_spawn_mem os stdout stderr command shell se h
  have hs := run_spawn_shape os stdout stderr command shell se hm
  refine ⟨hs.1, ?_, rfl⟩
  have hlen : (xRepeat (os.randVal % 4096)).length = os.randVal % 4096 := by
    simp [xRepeat, String.length]
  rw [hlen]
  exact Nat.mod_lt _ (by norm_num)

/-- Oracle and spawn configuration used by the C6 witness. -/
def osC6 : UnixOs := ⟨⟨0, 0⟩, .ok 0, ⟨0, 0⟩, 5⟩

/-- Spawn configuration observed in the C6 witness run. -/
def seC6 : SpawnEvent :=
  ⟨"echo", ["hi"], [(envVarName, xRepeat 5)], Stdio.null, Stdio.null, Stdio.null⟩

/-- C6 witness: a concrete run spawns with exactly the injected
variable, of length five here. -/
theorem c6_randomized_env_injection_witness :
    seC6.env = [(envVarName, xRepeat (5 % 4096))] ∧
    (xRepeat (5 % 4096)).length < 4096 ∧
    (xRepeat (5 % 4096)).toList = List.replicate (5 % 4096) 'X' :=
  c6_randomized_env_injection osC6 Stdio.null Stdio.null "echo hi" "" seC6
    (by decide)

/- ---------------------------------------------------------------- -/
/- C7 -- stdio configuration of every spawn.                         -/
/- ---------------------------------------------------------------- -/

/-- C7: on both platform variants, every spawn performed by the
execute operation closes the child's standard input and sets standard
output and standard error exactly to the caller-supplied policies. -/
theorem c7_stdio_configuration (os : UnixOs) (wos : WinOs)
    (stdout stderr : Stdio) (command shell : String) :
    (∀ se : SpawnEvent,
      Event.spawn se ∈ (execute_and_time os stdout stderr command shell).2 →
        se.stdin = Stdio.null ∧ se.stdout = stdout ∧ se.stderr = stderr) ∧
    (∀ se : SpawnEvent,
      Event.spawn se ∈
          (execute_and_time_win wos stdout stderr command shell).2 →
        se.stdin = Stdio.null ∧ se.stdout = stdout ∧ se.stderr = stderr) := by
  constructor
  · intro se h
    have hs := run_spawn_shape os stdout stderr command shell se
      (execute_spawn_mem os stdout stderr command shell se h)
    exact hs.2
  · intro se h
    have hs := run_win_spawn_shape wos stdout stderr command shell se
      (execute_win_spawn_mem wos stdout stderr command shell se h)
    exact hs.2

/-- Oracles and spawn configurations used by the C7 witness. -/
def osC7 : UnixOs := ⟨⟨0, 0⟩, .ok 0, ⟨0, 0⟩, 5⟩

/-- Windows oracle of the C7 witness. -/
def wosC7 : WinOs := ⟨.ok (), .ok 0, 100, 200⟩

/-- Unix spawn configuration observed in the C7 witness run. -/
def seC7u : SpawnEvent :=
  ⟨"echo", ["hi"], [(envVarName, xRepeat (5 % 4096))], Stdio.null,
   Stdio.piped, Stdio.inherit⟩

/-- Windows spawn configuration observed in the C7 witness run. -/
def seC7w : SpawnEvent :=
  ⟨"echo", ["hi"], [], Stdio.null, Stdio.piped, Stdio.inherit⟩

/-- C7 witness: concrete runs on both platform variants spawn with a
closed stdin and the caller's piped stdout and inherited stderr. -/
theorem c7_stdio_configuration_witness :
    (seC7u.stdin = Stdio.null ∧ seC7u.stdout = Stdio.piped ∧
      seC7u.stderr = Stdio.inherit) ∧
    (seC7w.stdin = Stdio.null ∧ seC7w.stdout = Stdio.piped ∧
      seC7w.stderr = Stdio.inherit) :=
  ⟨(c7_stdio_configuration osC7 wosC7 Stdio.piped Stdio.inherit "echo hi" "").1
     seC7u (by decide),
   (c7_stdio_configuration osC7 wosC7 Stdio.piped Stdio.inherit "echo hi" "").2
     seC7w (by decide)⟩

/- ---------------------------------------------------------------- -/
/- C8 -- timer protocol.                                             -/
/- ---------------------------------------------------------------- -/

/-- Oracle whose spawn fails, used to show the timer is not stopped on
a failing invocation. -/
def osC8fail : UnixOs :=
  ⟨⟨0, 0⟩, .error ⟨IoErrorKind.notFound, "program not found"⟩, ⟨0, 0⟩, 5⟩

/-- C8 counterexample: in an invocation whose spawn fails, the error
propagates before `stop`, so the CPU timer is stopped zero times, not
exactly once -- the trace holds only the timer creation and the spawn
attempt. -/
theorem c8_counterexample_spawn_failure :
    ((execute_and_time osC8fail Stdio.null Stdio.null "true" "").2).countP
        isTimerStop = 0 ∧
    (execute_and_time osC8fail Stdio.null Stdio.null "true" "").2 =
      [Event.timerCreate,
       Event.spawn ⟨"true", [], [(envVarName, xRepeat 5)], Stdio.null,
         Stdio.null, Stdio.null⟩] := by
  constructor
  · rfl
  · rfl

/-- C8 (amended): in every invocation that completes successfully the
CPU timer is stopped exactly once and only after the wait (when a
process was spawned) -- in the platform-specific order Unix-style
create-spawn-wait-stop and Windows-style spawn-create-wait-stop --
while in every invocation, on either platform, that returns an error
(parse, spawn or wait failure) the timer is never stopped; in
particular a Windows wait failure leaves the already-created
handle-based timer unstopped. -/
theorem c8_amended_timer_protocol (os : UnixOs) (wos : WinOs)
    (stdout stderr : Stdio) (command shell : String) :
    (∀ ex args raw,
      prepare_shell_command command shell "-c" = .ok (some (ex, args)) →
      os.spawnOutcome = .ok raw →
      ∃ se, (execute_and_time os stdout stderr command shell).2 =
        [Event.timerCreate, Event.spawn se, Event.wait, Event.timerStop]) ∧
    (prepare_shell_command command shell "-c" = .ok none →
      (execute_and_time os stdout stderr command shell).2 =
        [Event.timerCreate, Event.timerStop]) ∧
    (∀ err, (execute_and_time os stdout stderr command shell).1 = .error err →
      ((execute_and_time os stdout stderr command shell).2).countP
        isTimerStop = 0) ∧
    (∀ ex args raw,
      prepare_shell_command command shell "/C" = .ok (some (ex, args)) →
      wos.spawnOutcome = .ok () →
      wos.waitOutcome = .ok raw →
      ∃ se, (execute_and_time_win wos stdout stderr command shell).2 =
        [Event.spawn se, Event.timerCreate, Event.wait, Event.timerStop]) ∧
    (∀ err,
      (execute_and_time_win wos stdout stderr command shell).1 = .error err →
      ((execute_and_time_win wos stdout stderr command shell).2).countP
        isTimerStop = 0) ∧
    (∀ ex args e,
      prepare_shell_command command shell "/C" = .ok (some (ex, args)) →
      wos.spawnOutcome = .ok () →
      wos.waitOutcome = .error e →
      ∃ se, (execute_and_time_win wos stdout stderr command shell).2 =
        [Event.spawn se, Event.timerCreate, Event.wait]) := by
  refine ⟨?_, ?_, ?_, ?_, ?_, ?_⟩
  · intro ex args raw hp hs
    have hrun : run_shell_command os stdout stderr command shell =
        ⟨.ok (ExitStatus.fromRaw raw),
         [Event.spawn ⟨ex, args, [(envVarName, xRepeat (os.randVal % 4096))],
           Stdio.null, stdout, stderr⟩, Event.wait],
         ⟨os.startUsage.user + os.childUsage.user,
          os.startUsage.sys + os.childUsage.sys⟩⟩ := by
      unfold run_shell_command
      rw [hp, hs]
    have hex := execute_eq_of_run os stdout stderr command shell _ hrun
    exact ⟨_, by rw [hex]; rfl⟩
  · intro hp
    have hrun : run_shell_command os stdout stderr command shell =
        ⟨.ok (ExitStatus.fromRaw 0), [], os.startUsage⟩ := by
      unfold run_shell_command
      rw [hp]
    have hex := execute_eq_of_run os stdout stderr command shell _ hrun
    rw [hex]
    rfl
  · intro err herr
    cases hp : prepare_shell_command command shell "-c" with
    | error e =>
      have hrun : run_shell_command os stdout stderr command shell =
          ⟨.error e, [], os.startUsage⟩ := by
        unfold run_shell_command
        rw [hp]
      rw [execute_eq_of_run os stdout stderr command shell _ hrun]
      rfl
    | ok po =>
      cases po with
      | none =>
        have hrun : run_shell_command os stdout stderr command shell =
            ⟨.ok (ExitStatus.fromRaw 0), [], os.startUsage⟩ := by
          unfold run_shell_command
          rw [hp]
        rw [execute_eq_of_run os stdout stderr command shell _ hrun] at herr
        simp at herr
      | some pr =>
        obtain ⟨ex, args⟩ := pr
        cases hs : os.spawnOutcome with
        | error e =>
          have hrun : run_shell_command os stdout stderr command shell =
              ⟨.error e,
               [Event.spawn ⟨ex, args,
                 [(envVarName, xRepeat (os.randVal % 4096))],
                 Stdio.null, stdout, stderr⟩], os.startUsage⟩ := by
            unfold run_shell_command
            rw [hp, hs]
          rw [execute_eq_of_run os stdout stderr command shell _ hrun]
          rfl
        | ok raw =>
          have hrun : run_shell_command os stdout stderr command shell =
              ⟨.ok (ExitStatus.fromRaw raw),
               [Event.spawn ⟨ex, args,
                 [(envVarName, xRepeat (os.randVal % 4096))],
                 Stdio.null, stdout, stderr⟩, Event.wait],
               ⟨os.startUsage.user + os.childUsage.user,
                os.startUsage.sys + os.childUsage.sys⟩⟩ := by
            unfold run_shell_command
            rw [hp, hs]
          rw [execute_eq_of_run os stdout stderr command shell _ hrun] at herr
          simp at herr
  · intro ex args raw hp hs hw
    have hrun : run_shell_command_win wos stdout stderr command shell =
        ⟨.ok WinRunResult.child,
         [Event.spawn ⟨ex, args, [], Stdio.null, stdout, stderr⟩]⟩ := by
      unfold run_shell_command_win
      rw [hp, hs]
    have hex := execute_win_eq_of_run wos stdout stderr command shell _ hrun
    rw [hw] at hex
    exact ⟨_, by rw [hex]; rfl⟩
  · intro err herr
    cases hp : prepare_shell_command command shell "/C" with
    | error e =>
      have hrun : run_shell_command_win wos stdout stderr command shell =
          ⟨.error e, []⟩ := by
        unfold run_shell_command_win
        rw [hp]
      rw [execute_win_eq_of_run wos stdout stderr command shell _ hrun]
      rfl
    | ok po =>
      cases po with
      | none =>
        have hrun : run_shell_command_win wos stdout stderr command shell =
            ⟨.ok WinRunResult.exitZero, []⟩ := by
          unfold run_shell_command_win
          rw [hp]
        rw [execute_win_eq_of_run wos stdout stderr command shell _ hrun]
        rfl
      | some pr =>
        obtain ⟨ex, args⟩ := pr
        cases hs : wos.spawnOutcome with
        | error e =>
          have hrun : run_shell_command_win wos stdout stderr command shell =
              ⟨.error e,
               [Event.spawn ⟨ex, args, [], Stdio.null, stdout, stderr⟩]⟩ := by
            unfold run_shell_command_win
            rw [hp, hs]
          rw [execute_win_eq_of_run wos stdout stderr command shell _ hrun]
          rfl
        | ok u =>
          have hrun : run_shell_command_win wos stdout stderr command shell =
              ⟨.ok WinRunResult.child,
               [Event.spawn ⟨ex, args, [], Stdio.null, stdout, stderr⟩]⟩ := by
            unfold run_shell_command_win
            rw [hp, hs]
          have hex := execute_win_eq_of_run wos stdout stderr command shell
            _ hrun
          cases hw : wos.waitOutcome with
          | error e =>
            rw [hw] at hex
            rw [hex]
            rfl
          | ok code =>
            rw [hw] at hex
            rw [hex] at herr
            simp at herr
  · intro ex args e hp hs hw
    have hrun : run_shell_command_win wos stdout stderr command shell =
        ⟨.ok WinRunResult.child,
         [Event.spawn ⟨ex, args, [], Stdio.null, stdout, stderr⟩]⟩ := by
      unfold run_shell_command_win
      rw [hp, hs]
    have hex := execute_win_eq_of_run wos stdout stderr command shell _ hrun
    rw [hw] at hex
    exact ⟨_, by rw [hex]; rfl⟩

/-- Oracles used by the C8 witness. -/
def osC8ok : UnixOs := ⟨⟨0, 0⟩, .ok 0, ⟨1, 1⟩, 3⟩

/-- Windows oracle of the C8 witness. -/
def wosC8 : WinOs := ⟨.ok (), .ok 0, 100, 200⟩

/-- Windows oracle of the C8 witness whose wait fails. -/
def wosC8waitFail : WinOs :=
  ⟨.ok (), .error ⟨IoErrorKind.other, "wait failed"⟩, 100, 200⟩

/-- C8 witness: concrete successful runs produce exactly the
platform-specific event orders, and a concrete Windows run whose wait
fails creates the timer but never stops it. -/
theorem c8_amended_timer_protocol_witness :
    (∃ se, (execute_and_time osC8ok Stdio.null Stdio.null "echo hi" "").2 =
      [Event.timerCreate, Event.spawn se, Event.wait, Event.timerStop]) ∧
    (∃ se, (execute_and_time_win wosC8 Stdio.null Stdio.null "echo hi" "").2 =
      [Event.spawn se, Event.timerCreate, Event.wait, Event.timerStop]) ∧
    (∃ se, (execute_and_time_win wosC8waitFail Stdio.null Stdio.null
        "echo hi" "").2 =
      [Event.spawn se, Event.timerCreate, Event.wait]) :=
  ⟨(c8_amended_timer_protocol osC8ok wosC8 Stdio.null Stdio.null
      "echo hi" "").1 "echo" ["hi"] 0 (by decide) rfl,
   (c8_amended_timer_protocol osC8ok wosC8 Stdio.null Stdio.null
      "echo hi" "").2.2.2.1 "echo" ["hi"] 0 (by decide) rfl rfl,
   (c8_amended_timer_protocol osC8ok wosC8waitFail Stdio.null Stdio.null
      "echo hi" "").2.2.2.2.2 "echo" ["hi"]
      ⟨IoErrorKind.other, "wait failed"⟩ (by decide) rfl rfl⟩
